import Mathlib

/-!
Verification development for the certbot RFC 2136 DNS plugin
(`certbot_dns_rfc2136/dns_rfc2136.py`) and the Exim installer
(`certbot_exim/installer.py`).

The Python code is shallowly embedded: DNS names become lists of labels,
DNS messages become structures, the network transports (`dns.query.udp`,
`dns.query.tcp`) become function parameters, and the stateful target
server of the round-trip property becomes explicit state passing.
-/

namespace DnsRfc2136

/-! ### DNS protocol constants (dnspython `dns.rcode`, `dns.flags`,
`dns.rdatatype`, `dns.rdataclass`) -/

abbrev Rcode := Nat

def NOERROR : Rcode := 0
def FORMERR : Rcode := 1
def SERVFAIL : Rcode := 2
def NXDOMAIN : Rcode := 3
def NOTIMP : Rcode := 4
def REFUSED : Rcode := 5
def NOTAUTH : Rcode := 9

/-- `dns.flags.QR` -/
def QR : Nat := 0x8000
/-- `dns.flags.AA` -/
def AA : Nat := 0x0400
/-- `dns.flags.TC` -/
def TC : Nat := 0x0200
/-- `dns.flags.RD` -/
def RD : Nat := 0x0100
/-- `dns.flags.RA` -/
def RA : Nat := 0x0080

/-- `dns.rdatatype.SOA` -/
def SOA : Nat := 6
/-- `dns.rdatatype.TXT` -/
def TXT : Nat := 16
/-- `dns.rdataclass.IN` -/
def IN : Nat := 1

/-! ### DNS names (dnspython `dns.name`)

A name is its list of labels; an absolute name ends with the root
(empty) label, matching dnspython's representation. -/

/-- Splitting a character list at every dot (the groups, in order). -/
def splitDot : List Char → List (List Char)
  | [] => [[]]
  | c :: cs =>
    if c = '.' then [] :: splitDot cs
    else
      match splitDot cs with
      | [] => [[c]]
      | g :: gs => (c :: g) :: gs

/-- Python's `s.split('.')`, structurally recursive over the characters. -/
def splitOnDot (s : String) : List String :=
  (splitDot s.data).map (fun l => ⟨l⟩)

/-- `dns.name.from_text(s)` with the default origin `dns.name.root`:
split on dots; a name without a trailing dot is made absolute by
appending the root label. -/
def from_text (s : String) : List String :=
  let parts := splitOnDot s
  if parts.getLast? = some "" then parts else parts ++ [""]

/-- `dns.name.Name.is_absolute` -/
def is_absolute (n : List String) : Bool :=
  n.getLast? = some ""

/-- `n.is_subdomain(o)`: the labels of `o` are a suffix of those of `n`. -/
def is_subdomain (n o : List String) : Bool :=
  o.isSuffixOf n

/-- `n.relativize(o)`: if `o` is an ancestor of (or equal to) `n`, strip
the `o` suffix from `n`; otherwise return `n` unchanged. -/
def relativize (n o : List String) : List String :=
  if is_subdomain n o then n.take (n.length - o.length) else n

/-! ### DNS queries and responses -/

/-- A query message, as built by `dns.message.make_query` plus any flag
edits performed by the client before transmission. -/
structure DnsQuery where
  qname : List String
  rdtype : Nat
  rdclass : Nat
  flags : Nat
deriving DecidableEq, Repr

/-- `dns.message.make_query(qname, rdtype, rdclass)`: a fresh message's
flags default to `dns.flags.RD` in dnspython. -/
def make_query (qname : List String) (rdtype rdclass : Nat) : DnsQuery :=
  { qname := qname, rdtype := rdtype, rdclass := rdclass, flags := RD }

/-- A server response as the client inspects it: response code, answer
section (entries kept opaque) and header flags. -/
structure DnsResponse where
  rcode : Rcode
  answer : List String
  flags : Nat
deriving DecidableEq, Repr

/-! ### TSIG algorithms and client construction -/

inductive TsigAlg where
  | hmac_md5
  | hmac_sha1
  | hmac_sha224
  | hmac_sha256
  | hmac_sha384
  | hmac_sha512
deriving DecidableEq, Repr

/-- The class attribute `_RFC2136Client.ALGORITHMS`. -/
def ALGORITHMS : List (String × TsigAlg) :=
  [("HMAC-MD5", .hmac_md5),
   ("HMAC-SHA1", .hmac_sha1),
   ("HMAC-SHA224", .hmac_sha224),
   ("HMAC-SHA256", .hmac_sha256),
   ("HMAC-SHA384", .hmac_sha384),
   ("HMAC-SHA512", .hmac_sha512)]

/-- The state built by `_RFC2136Client.__init__`: the keyring is kept as
the (name, secret) pair it is built from. -/
structure Client where
  server : String
  keyName : String
  keySecret : String
  algorithm : TsigAlg
deriving DecidableEq, Repr

/-- `_RFC2136Client.__init__(server, key_name, key_secret, key_algorithm)`:
`self.algorithm = self.ALGORITHMS.get(key_algorithm, dns.tsig.HMAC_MD5)`.
Construction is total: no unknown-algorithm check is performed. -/
def mkClient (server key_name key_secret key_algorithm : String) : Client :=
  { server := server
    keyName := key_name
    keySecret := key_secret
    algorithm := (ALGORITHMS.lookup key_algorithm).getD .hmac_md5 }

/-! ### Update messages (dnspython `dns.update.Update`) -/

/-- One change section entry of an UPDATE message. `update.add` records
rdata of the update's record class (IN); `update.delete` with rdata
targets the exact (name, type, data) triple. -/
inductive Change where
  | add (owner : List String) (ttl : Nat) (rdtype : Nat) (rdclass : Nat) (content : String)
  | del (owner : List String) (rdtype : Nat) (content : String)
deriving DecidableEq, Repr

/-- `dns.update.Update(domain, keyring, keyalgorithm)` with the changes
appended by the client before transmission. -/
structure UpdateMessage where
  zone : List String
  keyName : String
  algorithm : TsigAlg
  changes : List Change
deriving DecidableEq, Repr

/-! ### Errors (`certbot.errors.PluginError`)

The Python code raises a single `PluginError` whose message is built by
string formatting; the embedding keeps the formatted-in data as
structured payloads:
 * `queryError e` for `'Encountered error when making query: {0}'.format(e)`;
 * `noBaseDomain n gs` for
   `'Unable to determine base domain for {0} using names: {1}.'.format(domain_name, domain_name_guesses)`;
 * `addError e` / `delError e` for the add/delete wrappers. -/
inductive PluginError where
  | queryError (cause : String)
  | noBaseDomain (domainName : String) (guesses : List String)
  | addError (cause : String)
  | delError (cause : String)
deriving DecidableEq, Repr

/-! ### Zone discovery (`_RFC2136Client._find_domain`) -/

/-- The SOA probe built for one guess inside the `_find_domain` loop:
`domain = dns.name.from_text(guess)`, made absolute if needed, then
`request = dns.message.make_query(domain, SOA, IN)` followed by
`request.flags ^= dns.flags.RD`. -/
def probeQuery (guess : String) : DnsQuery :=
  let domain := from_text guess
  let domain := if is_absolute domain then domain else domain ++ [""]
  let request := make_query domain SOA IN
  { request with flags := request.flags ^^^ RD }

/-- The acceptance test of the `_find_domain` loop:
`rcode == dns.rcode.NOERROR and len(response.answer) > 0 and response.flags & dns.flags.AA`. -/
def authoritative (resp : DnsResponse) : Bool :=
  resp.rcode == NOERROR && decide (0 < resp.answer.length) && (resp.flags &&& AA != 0)

/-- The `for guess in domain_name_guesses` loop of `_find_domain`,
instrumented: besides the outcome (`none` when the loop falls through),
it returns the list of guesses actually probed, in order. A transport
exception is wrapped into a `PluginError` and ends the loop; an
authoritative answer returns the guess. -/
def find_domain_loop (udp : DnsQuery → Except String DnsResponse) :
    List String → Option (Except PluginError String) × List String
  | [] => (none, [])
  | guess :: rest =>
    match udp (probeQuery guess) with
    | .error e => (some (.error (.queryError e)), [guess])
    | .ok resp =>
      if authoritative resp then
        (some (.ok guess), [guess])
      else
        let next := find_domain_loop udp rest
        (next.1, guess :: next.2)

/-- `_find_domain`, generic in the guess list it iterates over: the loop
result, or the exhaustion error carrying the original name and the full
guess list. -/
def find_domain_list (udp : DnsQuery → Except String DnsResponse)
    (domain_name : String) (guesses : List String) : Except PluginError String :=
  match (find_domain_loop udp guesses).1 with
  | some r => r
  | none => .error (.noBaseDomain domain_name guesses)

/-- The guesses `_find_domain` actually probes, in order. -/
def probedCandidates (udp : DnsQuery → Except String DnsResponse)
    (guesses : List String) : List String :=
  (find_domain_loop udp guesses).2

/-! ### Candidate generation
(`certbot.plugins.dns_common.base_domain_name_guesses`) -/

/-- Python's `'.'.join` on a list of labels. -/
def joinDots : List String → String
  | [] => ""
  | [l] => l
  | l :: l2 :: ls => l ++ "." ++ joinDots (l2 :: ls)

/-- Modelled from the spec: `certbot.plugins.dns_common.base_domain_name_guesses`
is part of this repository but not under `src/`. Per the spec, the
Candidate Domain List is "an ordered sequence of progressively-shorter
dot-separated name suffixes derived from a fully-qualified record name
(e.g. for `_acme-challenge.foo.example.com.`, produces `foo.example.com`,
`example.com`, `com` — stripping the DNS-01 label prefix and walking up
one label at a time)", most specific first. -/
def base_domain_name_guesses (domain : String) : List String :=
  let fragments := splitOnDot domain
  let fragments := if fragments.getLast? = some "" then fragments.dropLast else fragments
  let fragments := if fragments.head? = some "_acme-challenge" then fragments.tail else fragments
  (List.range fragments.length).map (fun i => joinDots (fragments.drop i))

/-- `_find_domain(domain_name)` as called by the record operations:
iterate over `dns_common.base_domain_name_guesses(domain_name)`. -/
def find_domain (udp : DnsQuery → Except String DnsResponse)
    (domain_name : String) : Except PluginError String :=
  find_domain_list udp domain_name (base_domain_name_guesses domain_name)

/-! ### Record operations (`add_txt_record`, `del_txt_record`)

The TCP transport is modelled with explicit state passing so that a
stateful model server can be plugged in; the Python `dns.query.tcp`
call corresponds to one application of the transport. -/

/-- The UPDATE message built by `add_txt_record` after zone discovery:
`rel = dns.name.from_text(record_name).relativize(dns.name.from_text(domain))`,
then `update.add(rel, record_ttl, dns.rdatatype.TXT, record_content)`. -/
def addUpdateMessage (cfg : Client) (domain record_name record_content : String)
    (record_ttl : Nat) : UpdateMessage :=
  let n := from_text record_name
  let o := from_text domain
  let rel := relativize n o
  { zone := from_text domain
    keyName := cfg.keyName
    algorithm := cfg.algorithm
    changes := [.add rel record_ttl TXT IN record_content] }

/-- The UPDATE message built by `del_txt_record` after zone discovery:
`update.delete(rel, dns.rdatatype.TXT, record_content)`. -/
def delUpdateMessage (cfg : Client) (domain record_name record_content : String) :
    UpdateMessage :=
  let n := from_text record_name
  let o := from_text domain
  let rel := relativize n o
  { zone := from_text domain
    keyName := cfg.keyName
    algorithm := cfg.algorithm
    changes := [.del rel TXT record_content] }

/-- `_RFC2136Client.add_txt_record`. Faithful to the source: after
`response = dns.query.tcp(update, self.server)` the response code is
compared with NOERROR only to emit a debug log — a non-NOERROR response
still falls off the end of the method, i.e. returns success. Only a
transport exception is wrapped into a `PluginError`. -/
def add_txt_record {σ : Type}
    (udp : DnsQuery → Except String DnsResponse)
    (tcp : σ → UpdateMessage → σ × Except String DnsResponse)
    (cfg : Client) (domain_name record_name record_content : String)
    (record_ttl : Nat) (st : σ) : σ × Except PluginError Unit :=
  match find_domain udp domain_name with
  | .error e => (st, .error e)
  | .ok domain =>
    let update := addUpdateMessage cfg domain record_name record_content record_ttl
    match tcp st update with
    | (st2, .ok _resp) => (st2, .ok ())
    | (st2, .error e) => (st2, .error (.addError e))

/-- `_RFC2136Client.del_txt_record`. Same response handling as
`add_txt_record`: the response code is inspected only for logging. -/
def del_txt_record {σ : Type}
    (udp : DnsQuery → Except String DnsResponse)
    (tcp : σ → UpdateMessage → σ × Except String DnsResponse)
    (cfg : Client) (domain_name record_name record_content : String)
    (st : σ) : σ × Except PluginError Unit :=
  match find_domain udp domain_name with
  | .error e => (st, .error e)
  | .ok domain =>
    let update := delUpdateMessage cfg domain record_name record_content
    match tcp st update with
    | (st2, .ok _resp) => (st2, .ok ())
    | (st2, .error e) => (st2, .error (.delError e))

/-! ### A model server for the round-trip property

A stub server that tracks the applied TXT records of the zone as a set
of (relative owner name, text value) pairs — RFC 2136 "Add to an RRset"
ignores a duplicate rdata, and "Delete an RR from an RRset" removes the
exact matching rdata — and answers every update with NOERROR. -/

abbrev TxtRecord := List String × String

abbrev ZoneState := Finset TxtRecord

/-- Apply one change section entry to the tracked record set. -/
def applyChange (st : ZoneState) : Change → ZoneState
  | .add owner _ttl rdtype _rdclass content =>
    if rdtype = TXT then insert (owner, content) st else st
  | .del owner rdtype content =>
    if rdtype = TXT then st.erase (owner, content) else st

/-- Apply an UPDATE message's changes in order. -/
def applyUpdate (st : ZoneState) (m : UpdateMessage) : ZoneState :=
  m.changes.foldl applyChange st

/-- The model server as a TCP transport: applies the update to its
state and answers NOERROR. -/
def modelServerTcp (st : ZoneState) (m : UpdateMessage) :
    ZoneState × Except String DnsResponse :=
  (applyUpdate st m, .ok { rcode := NOERROR, answer := [], flags := QR })

/-- `add_txt_record` followed by `del_txt_record` with the identical
name and value, run against the model server from a given zone state;
result: the final zone state. -/
def addThenDel (udp : DnsQuery → Except String DnsResponse) (cfg : Client)
    (domain_name record_name record_content : String) (record_ttl : Nat)
    (st : ZoneState) : ZoneState :=
  let st1 := (add_txt_record udp modelServerTcp cfg domain_name record_name
      record_content record_ttl st).1
  (del_txt_record udp modelServerTcp cfg domain_name record_name
      record_content st1).1

end DnsRfc2136

namespace CertbotExim

/-- The errors raised by the installer: `certbot.errors.NoInstallationError`
(an installation error) from `prepare`, and
`certbot.errors.MisconfigurationError` (a configuration error) from
`restart`. -/
inductive EximError where
  | noInstallation (msg : String)
  | misconfiguration (msg : String)
deriving DecidableEq, Repr

/-- The environment the installer runs in: the configured restart
command (`certbot_exim.constants.CLI_DEFAULTS['restart_cmd']`, a module
of this repository not under `src/`, kept abstract — the claims do not
depend on its value), `certbot.util.exe_exists` (a path lookup), and
`certbot.util.run_script`, whose failure is a
`certbot.errors.SubprocessError` carried here as the error message. -/
structure Env where
  restart_cmd : String
  exe_exists : String → Bool
  run_script : String → Except String Unit

/-- `Installer.prepare`: raise `NoInstallationError` when the restart
command is not found on the path. -/
def prepare (env : Env) : Except EximError Unit :=
  let restart_cmd := env.restart_cmd
  if env.exe_exists restart_cmd then .ok ()
  else .error (.noInstallation ("Cannot find command " ++ restart_cmd))

/-- `Installer.restart`: run the restart command; wrap a
`SubprocessError` into a `MisconfigurationError`. -/
def restart (env : Env) : Except EximError Unit :=
  match env.run_script env.restart_cmd with
  | .ok _ => .ok ()
  | .error err => .error (.misconfiguration err)

end CertbotExim

namespace DnsRfc2136

/-! ### Shared test fixtures -/

/-- A non-authoritative NOERROR response (empty answer section). -/
def respNonAuth : DnsResponse := { rcode := NOERROR, answer := [], flags := QR }

/-- An authoritative SOA answer: NOERROR, one answer, AA set. -/
def respAuth : DnsResponse := { rcode := NOERROR, answer := ["soa"], flags := QR ||| AA }

/-- A server that answers the SOA probe for `example.com` authoritatively
and every other probe with a non-authoritative NOERROR response. -/
def udpExampleCom : DnsQuery → Except String DnsResponse := fun q =>
  if q.qname = from_text "example.com" then .ok respAuth else .ok respNonAuth

/-- A server that answers the SOA probe for `b.example` authoritatively
and every other probe with a non-authoritative NOERROR response. -/
def udpBExample : DnsQuery → Except String DnsResponse := fun q =>
  if q.qname = from_text "b.example" then .ok respAuth else .ok respNonAuth

/-- A server that never answers authoritatively. -/
def udpNeverAuth : DnsQuery → Except String DnsResponse := fun _ =>
  .ok respNonAuth

/-- A server whose transport times out on the probe for `b.example` and
otherwise answers non-authoritatively. -/
def udpTimeoutBExample : DnsQuery → Except String DnsResponse := fun q =>
  if q.qname = from_text "b.example" then .error "timeout" else .ok respNonAuth

/-- A TCP transport whose server answers every update with REFUSED. -/
def tcpRefused {σ : Type} (st : σ) (_m : UpdateMessage) :
    σ × Except String DnsResponse :=
  (st, .ok { rcode := REFUSED, answer := [], flags := QR })

/-- A TCP transport that records the transmitted messages and answers
NOERROR. -/
def recordingTcp (log : List UpdateMessage) (m : UpdateMessage) :
    List UpdateMessage × Except String DnsResponse :=
  (log ++ [m], .ok respNonAuth)

/-- A concretely configured client. -/
def client0 : Client := mkClient "192.0.2.1" "keyname" "secretsecret" "HMAC-SHA256"

/-- The dot-joined proper-and-improper suffixes of a label list, most
specific first: `suffixJoins [a, b, c] = [a.b.c, b.c, c]`. -/
def suffixJoins : List String → List String
  | [] => []
  | l :: ls => joinDots (l :: ls) :: suffixJoins ls

/-! ### Helper lemmas -/

/-- The suffix walk of `base_domain_name_guesses` is `suffixJoins`. -/
theorem range_map_joinDots (fragments : List String) :
    (List.range fragments.length).map (fun i => joinDots (fragments.drop i)) =
      suffixJoins fragments := by
  induction fragments with
  | nil => rfl
  | cons l ls ih =>
    simp only [List.length_cons, List.range_succ_eq_map, List.map_cons,
      List.map_map, suffixJoins, List.drop_zero]
    refine congrArg _ ?_
    rw [← ih]
    rfl

/-- Each entry of `suffixJoins` extends the next by one leading label
and a dot: the list is ordered from most specific to top level. -/
theorem suffixJoins_chain (fragments : List String) :
    List.Chain' (fun a b => ∃ l, a = l ++ "." ++ b) (suffixJoins fragments) := by
  induction fragments with
  | nil => simp [suffixJoins]
  | cons l ls ih =>
    cases ls with
    | nil => simp [suffixJoins]
    | cons l2 ls2 =>
      refine List.Chain'.cons ?_ ih
      exact ⟨l, rfl⟩

/-- Probes that draw a non-authoritative answer from the server are
skipped: the loop on `pre ++ rest` behaves like the loop on `rest`,
with the skipped guesses prepended to the probed list. -/
theorem find_domain_loop_append_skip (udp : DnsQuery → Except String DnsResponse)
    (pre rest : List String)
    (hpre : ∀ c ∈ pre, ∃ s, udp (probeQuery c) = .ok s ∧ authoritative s = false) :
    find_domain_loop udp (pre ++ rest) =
      ((find_domain_loop udp rest).1, pre ++ (find_domain_loop udp rest).2) := by
  induction pre with
  | nil => simp
  | cons c cs ih =>
    obtain ⟨s, hs, hauth⟩ := hpre c (by simp)
    have ihrest := ih (fun d hd => hpre d (by simp [hd]))
    simp [find_domain_loop, hs, hauth, ihrest]

end DnsRfc2136

/-- C7: every SOA probe query built during zone resolution is for
resource type SOA, class IN, and has the Recursion-Desired flag cleared
(the `make_query` default sets RD; the client xors it away). -/
theorem DnsRfc2136.probe_query_soa_in_rd_cleared (guess : String) :
    (DnsRfc2136.probeQuery guess).rdtype = DnsRfc2136.SOA ∧
    (DnsRfc2136.probeQuery guess).rdclass = DnsRfc2136.IN ∧
    (DnsRfc2136.probeQuery guess).flags &&& DnsRfc2136.RD = 0 := by
  refine ⟨rfl, rfl, ?_⟩
  show (DnsRfc2136.RD ^^^ DnsRfc2136.RD) &&& DnsRfc2136.RD = 0
  decide

/-- C9: for any `key_algorithm` string that is not one of the six keys
of `ALGORITHMS`, `_RFC2136Client.__init__` succeeds (it is total) and
silently selects HMAC-MD5: `ALGORITHMS.get(key_algorithm, dns.tsig.HMAC_MD5)`. -/
theorem DnsRfc2136.mkClient_unknown_algorithm_defaults_md5
    (server key_name key_secret key_algorithm : String)
    (h : key_algorithm ∉ DnsRfc2136.ALGORITHMS.map Prod.fst) :
    DnsRfc2136.mkClient server key_name key_secret key_algorithm =
      { server := server, keyName := key_name, keySecret := key_secret,
        algorithm := .hmac_md5 } := by
  simp only [DnsRfc2136.ALGORITHMS, List.map, List.mem_cons, List.not_mem_nil,
    or_false, not_or] at h
  obtain ⟨h1, h2, h3, h4, h5, h6⟩ := h
  have e1 := beq_eq_false_iff_ne.mpr h1
  have e2 := beq_eq_false_iff_ne.mpr h2
  have e3 := beq_eq_false_iff_ne.mpr h3
  have e4 := beq_eq_false_iff_ne.mpr h4
  have e5 := beq_eq_false_iff_ne.mpr h5
  have e6 := beq_eq_false_iff_ne.mpr h6
  simp [DnsRfc2136.mkClient, DnsRfc2136.ALGORITHMS, List.lookup,
    e1, e2, e3, e4, e5, e6]

/-- C9 witness: the unknown (lowercase) name `hmac-sha256` is accepted
and mapped to HMAC-MD5. -/
theorem DnsRfc2136.mkClient_unknown_algorithm_defaults_md5_witness :
    "hmac-sha256" ∉ DnsRfc2136.ALGORITHMS.map Prod.fst ∧
    DnsRfc2136.mkClient "192.0.2.1" "k" "s" "hmac-sha256" =
      { server := "192.0.2.1", keyName := "k", keySecret := "s",
        algorithm := .hmac_md5 } :=
  ⟨by decide,
   DnsRfc2136.mkClient_unknown_algorithm_defaults_md5 "192.0.2.1" "k" "s"
     "hmac-sha256" (by decide)⟩

/-- C10: `Installer.prepare` raises `NoInstallationError` exactly when
the configured restart command is not on the path, and
`Installer.restart` raises `MisconfigurationError` exactly when running
the restart command fails with a `SubprocessError`. -/
theorem CertbotExim.installer_error_iff (env : CertbotExim.Env) :
    ((∃ m, CertbotExim.prepare env = .error (.noInstallation m)) ↔
      env.exe_exists env.restart_cmd = false) ∧
    ((∃ m, CertbotExim.restart env = .error (.misconfiguration m)) ↔
      ∃ e, env.run_script env.restart_cmd = .error e) := by
  constructor
  · cases h : env.exe_exists env.restart_cmd <;> simp [CertbotExim.prepare, h]
  · cases h : env.run_script env.restart_cmd <;> simp [CertbotExim.restart, h]

/-- C1 (the bug, evaluated): with a server that resolves the zone but
answers the UPDATE itself with REFUSED, both `add_txt_record` and
`del_txt_record` return success — the source compares the response code
with NOERROR only to emit a debug log and has no failure branch. -/
theorem DnsRfc2136.txt_record_ops_succeed_on_refused :
    (DnsRfc2136.add_txt_record DnsRfc2136.udpExampleCom DnsRfc2136.tcpRefused
        DnsRfc2136.client0 "example.com" "_acme-challenge.example.com"
        "validation" 120 ()).2 = .ok () ∧
    (DnsRfc2136.del_txt_record DnsRfc2136.udpExampleCom DnsRfc2136.tcpRefused
        DnsRfc2136.client0 "example.com" "_acme-challenge.example.com"
        "validation" ()).2 = .ok () :=
  ⟨rfl, rfl⟩

/-- C5: for a record name whose first label is `_acme-challenge`, the
Candidate Domain List is the dot-joined suffix walk of the remaining
labels (the trailing root label of a fully-qualified name dropped): the
challenge label is excluded, and the list is ordered most specific
first — each candidate extends the next by exactly one leading label. -/
theorem DnsRfc2136.base_domain_guesses_strip_challenge (domain : String)
    (ls : List String)
    (h : DnsRfc2136.splitOnDot domain = "_acme-challenge" :: ls) :
    DnsRfc2136.base_domain_name_guesses domain =
      DnsRfc2136.suffixJoins
        (if ls.getLast? = some "" then ls.dropLast else ls) ∧
    List.Chain' (fun a b => ∃ l, a = l ++ "." ++ b)
      (DnsRfc2136.base_domain_name_guesses domain) := by
  have key : DnsRfc2136.base_domain_name_guesses domain =
      DnsRfc2136.suffixJoins
        (if ls.getLast? = some "" then ls.dropLast else ls) := by
    unfold DnsRfc2136.base_domain_name_guesses
    rw [h]
    cases ls with
    | nil =>
      simp [DnsRfc2136.range_map_joinDots, DnsRfc2136.suffixJoins]
    | cons x xs =>
      by_cases he : (x :: xs).getLast? = some ""
      · simp only [List.getLast?_cons_cons, he, ↓reduceIte,
          List.dropLast_cons₂, List.head?_cons, List.tail_cons]
        exact DnsRfc2136.range_map_joinDots _
      · simp only [List.getLast?_cons_cons, he, ↓reduceIte,
          List.head?_cons, List.tail_cons]
        exact DnsRfc2136.range_map_joinDots _
  refine ⟨key, ?_⟩
  rw [key]
  exact DnsRfc2136.suffixJoins_chain _

/-- C5 witness: the spec's example — for
`_acme-challenge.foo.example.com.` the candidates are exactly
`foo.example.com`, `example.com`, `com`, most specific first. -/
theorem DnsRfc2136.base_domain_guesses_strip_challenge_witness :
    DnsRfc2136.base_domain_name_guesses "_acme-challenge.foo.example.com." =
      ["foo.example.com", "example.com", "com"] ∧
    List.Chain' (fun a b => ∃ l, a = l ++ "." ++ b)
      (DnsRfc2136.base_domain_name_guesses "_acme-challenge.foo.example.com.") := by
  have h := DnsRfc2136.base_domain_guesses_strip_challenge
    "_acme-challenge.foo.example.com." ["foo", "example", "com", ""] (by decide)
  refine ⟨?_, h.2⟩
  rw [h.1]
  rfl

/-- C6: for record name `_acme-challenge.www.example.com` with zone
`example.com`, the UPDATE built by `add_txt_record` has zone section
`example.com`, and its single change adds a TXT record of class IN with
owner name `_acme-challenge.www` (the record name relativized against
the zone) and the given TTL; the message transmitted over TCP is
exactly that one. -/
theorem DnsRfc2136.add_update_message_shape (cfg : DnsRfc2136.Client)
    (content : String) (ttl : Nat) :
    (DnsRfc2136.addUpdateMessage cfg "example.com"
        "_acme-challenge.www.example.com" content ttl).zone =
      DnsRfc2136.from_text "example.com" ∧
    (DnsRfc2136.addUpdateMessage cfg "example.com"
        "_acme-challenge.www.example.com" content ttl).changes =
      [DnsRfc2136.Change.add ["_acme-challenge", "www"] ttl
        DnsRfc2136.TXT DnsRfc2136.IN content] ∧
    (DnsRfc2136.add_txt_record DnsRfc2136.udpExampleCom DnsRfc2136.recordingTcp
        cfg "example.com" "_acme-challenge.www.example.com" content ttl []).1 =
      [DnsRfc2136.addUpdateMessage cfg "example.com"
        "_acme-challenge.www.example.com" content ttl] := by
  have rel : DnsRfc2136.relativize
      (DnsRfc2136.from_text "_acme-challenge.www.example.com")
      (DnsRfc2136.from_text "example.com") = ["_acme-challenge", "www"] := by
    decide
  refine ⟨rfl, ?_, rfl⟩
  simp [DnsRfc2136.addUpdateMessage, rel]

/-- C8 counterexample: when the zone already holds the identical TXT
record, `add_txt_record` (a set-semantics no-op per RFC 2136) followed
by `del_txt_record` removes it, so the final state differs from the
original. -/
theorem DnsRfc2136.add_then_del_not_roundtrip :
    DnsRfc2136.addThenDel DnsRfc2136.udpExampleCom DnsRfc2136.client0
        "example.com" "_acme-challenge.example.com" "validation" 120
        {(["_acme-challenge"], "validation")} ≠
      ({(["_acme-challenge"], "validation")} : DnsRfc2136.ZoneState) := by
  decide

/-- C8 (amended): against the model server, add-then-delete of the
identical (name, value) pair restores the original zone state provided
the zone did not already hold that record. -/
theorem DnsRfc2136.add_then_del_roundtrip
    (udp : DnsRfc2136.DnsQuery → Except String DnsRfc2136.DnsResponse)
    (cfg : DnsRfc2136.Client)
    (domain_name record_name record_content : String) (record_ttl : Nat)
    (st : DnsRfc2136.ZoneState) (domain : String)
    (hfd : DnsRfc2136.find_domain udp domain_name = .ok domain)
    (hnew : (DnsRfc2136.relativize (DnsRfc2136.from_text record_name)
        (DnsRfc2136.from_text domain), record_content) ∉ st) :
    DnsRfc2136.addThenDel udp cfg domain_name record_name record_content
      record_ttl st = st := by
  simp only [DnsRfc2136.addThenDel, DnsRfc2136.add_txt_record,
    DnsRfc2136.del_txt_record, hfd, DnsRfc2136.modelServerTcp,
    DnsRfc2136.applyUpdate, DnsRfc2136.addUpdateMessage,
    DnsRfc2136.delUpdateMessage, List.foldl_cons, List.foldl_nil,
    DnsRfc2136.applyChange, ↓reduceIte]
  exact Finset.erase_insert hnew

/-- C8 witness: from the empty zone, adding then deleting the record
restores the empty zone. -/
theorem DnsRfc2136.add_then_del_roundtrip_witness :
    DnsRfc2136.find_domain DnsRfc2136.udpExampleCom "example.com" =
      .ok "example.com" ∧
    (DnsRfc2136.relativize (DnsRfc2136.from_text "_acme-challenge.example.com")
        (DnsRfc2136.from_text "example.com"), "validation") ∉
      (∅ : DnsRfc2136.ZoneState) ∧
    DnsRfc2136.addThenDel DnsRfc2136.udpExampleCom DnsRfc2136.client0
      "example.com" "_acme-challenge.example.com" "validation" 120 ∅ = ∅ :=
  ⟨rfl, by decide,
   DnsRfc2136.add_then_del_roundtrip DnsRfc2136.udpExampleCom
     DnsRfc2136.client0 "example.com" "_acme-challenge.example.com"
     "validation" 120 ∅ "example.com" rfl (by decide)⟩

/-- C2: if the candidates split as `pre ++ g :: post` and every probe in
`pre` draws a successful but non-authoritative response while `g` draws
NOERROR + non-empty answer + AA, then `_find_domain` returns `g`, and
exactly `pre ++ [g]` are probed: no less-specific candidate after `g`
is touched. -/
theorem DnsRfc2136.find_domain_first_authoritative
    (udp : DnsRfc2136.DnsQuery → Except String DnsRfc2136.DnsResponse)
    (domain_name g : String) (pre post : List String)
    (resp : DnsRfc2136.DnsResponse)
    (hsplit : DnsRfc2136.base_domain_name_guesses domain_name = pre ++ g :: post)
    (hpre : ∀ c ∈ pre, ∃ s, udp (DnsRfc2136.probeQuery c) = .ok s ∧
      DnsRfc2136.authoritative s = false)
    (hg : udp (DnsRfc2136.probeQuery g) = .ok resp)
    (hauth : DnsRfc2136.authoritative resp = true) :
    DnsRfc2136.find_domain udp domain_name = .ok g ∧
    DnsRfc2136.probedCandidates udp (DnsRfc2136.base_domain_name_guesses domain_name) =
      pre ++ [g] := by
  have h := DnsRfc2136.find_domain_loop_append_skip udp pre (g :: post) hpre
  simp [DnsRfc2136.find_domain, DnsRfc2136.find_domain_list,
    DnsRfc2136.probedCandidates, hsplit, h, DnsRfc2136.find_domain_loop, hg, hauth]

/-- C2 witness: candidates of `a.b.example` are
`a.b.example, b.example, example`; the server answers authoritatively
only for `b.example`, so that guess is returned and `example` is never
probed. -/
theorem DnsRfc2136.find_domain_first_authoritative_witness :
    DnsRfc2136.find_domain DnsRfc2136.udpBExample "a.b.example" = .ok "b.example" ∧
    DnsRfc2136.probedCandidates DnsRfc2136.udpBExample
      (DnsRfc2136.base_domain_name_guesses "a.b.example") =
      ["a.b.example"] ++ ["b.example"] :=
  DnsRfc2136.find_domain_first_authoritative DnsRfc2136.udpBExample
    "a.b.example" "b.example" ["a.b.example"] ["example"] DnsRfc2136.respAuth
    (by decide)
    (by
      intro c hc
      fin_cases hc
      exact ⟨DnsRfc2136.respNonAuth, rfl, rfl⟩)
    rfl rfl

/-- C3: if every candidate's probe completes without transport error and
none is authoritative, `_find_domain` fails with the error carrying the
original record name and the full candidate list, in order, and every
candidate was probed. -/
theorem DnsRfc2136.find_domain_exhausted
    (udp : DnsRfc2136.DnsQuery → Except String DnsRfc2136.DnsResponse)
    (domain_name : String)
    (h : ∀ c ∈ DnsRfc2136.base_domain_name_guesses domain_name,
      ∃ s, udp (DnsRfc2136.probeQuery c) = .ok s ∧
        DnsRfc2136.authoritative s = false) :
    DnsRfc2136.find_domain udp domain_name =
      .error (.noBaseDomain domain_name
        (DnsRfc2136.base_domain_name_guesses domain_name)) ∧
    DnsRfc2136.probedCandidates udp (DnsRfc2136.base_domain_name_guesses domain_name) =
      DnsRfc2136.base_domain_name_guesses domain_name := by
  have hl := DnsRfc2136.find_domain_loop_append_skip udp
    (DnsRfc2136.base_domain_name_guesses domain_name) [] h
  simp only [List.append_nil] at hl
  simp [DnsRfc2136.find_domain, DnsRfc2136.find_domain_list,
    DnsRfc2136.probedCandidates, hl, DnsRfc2136.find_domain_loop]

/-- C3 witness: a server that never answers authoritatively makes
`_find_domain` fail with the original name and all three candidates of
`a.b.example`. -/
theorem DnsRfc2136.find_domain_exhausted_witness :
    DnsRfc2136.find_domain DnsRfc2136.udpNeverAuth "a.b.example" =
      .error (.noBaseDomain "a.b.example" ["a.b.example", "b.example", "example"]) ∧
    DnsRfc2136.probedCandidates DnsRfc2136.udpNeverAuth
      (DnsRfc2136.base_domain_name_guesses "a.b.example") =
      DnsRfc2136.base_domain_name_guesses "a.b.example" := by
  have h := DnsRfc2136.find_domain_exhausted DnsRfc2136.udpNeverAuth "a.b.example"
    (fun c _hc => ⟨DnsRfc2136.respNonAuth, rfl, rfl⟩)
  refine ⟨?_, h.2⟩
  rw [h.1]
  rfl

/-- C4: if the candidates split as `pre ++ g :: post`, every probe in
`pre` draws a successful non-authoritative response, and the probe for
`g` fails at the transport, `_find_domain` fails immediately with the
wrapped cause, and no candidate after `g` is probed. -/
theorem DnsRfc2136.find_domain_transport_error
    (udp : DnsRfc2136.DnsQuery → Except String DnsRfc2136.DnsResponse)
    (domain_name g e : String) (pre post : List String)
    (hsplit : DnsRfc2136.base_domain_name_guesses domain_name = pre ++ g :: post)
    (hpre : ∀ c ∈ pre, ∃ s, udp (DnsRfc2136.probeQuery c) = .ok s ∧
      DnsRfc2136.authoritative s = false)
    (hg : udp (DnsRfc2136.probeQuery g) = .error e) :
    DnsRfc2136.find_domain udp domain_name = .error (.queryError e) ∧
    DnsRfc2136.probedCandidates udp (DnsRfc2136.base_domain_name_guesses domain_name) =
      pre ++ [g] := by
  have h := DnsRfc2136.find_domain_loop_append_skip udp pre (g :: post) hpre
  simp [DnsRfc2136.find_domain, DnsRfc2136.find_domain_list,
    DnsRfc2136.probedCandidates, hsplit, h, DnsRfc2136.find_domain_loop, hg]

/-- C4 witness: the probe for `b.example` times out; resolution fails
with the wrapped cause and the candidate `example` is never probed. -/
theorem DnsRfc2136.find_domain_transport_error_witness :
    DnsRfc2136.find_domain DnsRfc2136.udpTimeoutBExample "a.b.example" =
      .error (.queryError "timeout") ∧
    DnsRfc2136.probedCandidates DnsRfc2136.udpTimeoutBExample
      (DnsRfc2136.base_domain_name_guesses "a.b.example") =
      ["a.b.example"] ++ ["b.example"] :=
  DnsRfc2136.find_domain_transport_error DnsRfc2136.udpTimeoutBExample
    "a.b.example" "b.example" "timeout" ["a.b.example"] ["example"]
    (by decide)
    (by
      intro c hc
      fin_cases hc
      exact ⟨DnsRfc2136.respNonAuth, rfl, rfl⟩)
    rfl
